import Mathlib

set_option linter.unusedVariables false

/-!
Verification development for the screenshot-to-solution processing pipeline of
the open-interview-helper repository.

The definitions below are a shallow embedding of:
- `electron/api/anthropicClient.ts` (class AnthropicClient): the LLM Gateway
  and the Result Interpreter (the JSON-extraction block of `processImages`);
- `electron/ProcessingHelper.ts` (class ProcessingHelper): the Processing
  Orchestrator with its Solve and Debug pipelines, credit gating and
  cancellation handling;
- the `decrement-credits` IPC handler of `electron/ipcHandlers.ts`.

Modelling conventions:
- JavaScript values flowing through the pipeline (parsed LLM responses,
  ProblemInfo) are modelled by the inductive `JValue`.
- `JSON.parse` is modelled by `jsonParse`, a recursive-descent parser for the
  JSON fragment this program exercises (objects, arrays, strings, booleans,
  null, and numeric literals kept as raw text).  Texts outside the fragment
  are parse failures, as they are for `JSON.parse`.
- Each network interaction is an `AxiosOutcome` chosen by the environment: a
  successful response body, an abort, an HTTP error with status and body, or
  a plain network error.
- Thrown JavaScript errors are modelled by `JsError`, which records the
  message and whether `axios.isCancel` holds for the thrown value.  Every
  error thrown by the AnthropicClient methods is a freshly constructed
  `Error`, so `isCancel` is `false` for all of them.
- The event stream sent over `mainWindow.webContents.send` is the `List Event`
  returned alongside the updated state; the number of attempted HTTP calls is
  returned as `calls`.
-/

/-- JavaScript values as they occur in this pipeline: the possible results of
`JSON.parse` and the records built by the client methods.  Numeric literals
are kept as their raw text, since no code under verification computes with
them. -/
inductive JValue where
  | jnull : JValue
  | jbool : Bool → JValue
  | jnum : String → JValue
  | jstr : String → JValue
  | jarr : List JValue → JValue
  | jobj : List (String × JValue) → JValue
deriving Repr

/-- Whitespace skipping for the JSON parser (space, tab, newline, carriage
return — the whitespace JSON permits). -/
def skipWs (cs : List Char) : List Char :=
  match cs with
  | c :: rest =>
    if c = ' ' ∨ c = '\n' ∨ c = '\t' ∨ c = '\r' then skipWs rest else c :: rest
  | [] => []

/-- Body of a JSON string after the opening quote, handling the escapes this
program's data can contain.  Returns the decoded string and the rest of the
input after the closing quote. -/
def parseStringBody (cs : List Char) (acc : List Char) : Option (String × List Char) :=
  match cs with
  | [] => none
  | '"' :: rest => some (String.mk acc.reverse, rest)
  | '\\' :: e :: rest =>
    match e with
    | '"' => parseStringBody rest ('"' :: acc)
    | '\\' => parseStringBody rest ('\\' :: acc)
    | '/' => parseStringBody rest ('/' :: acc)
    | 'n' => parseStringBody rest ('\n' :: acc)
    | 't' => parseStringBody rest ('\t' :: acc)
    | 'r' => parseStringBody rest ('\r' :: acc)
    | _ => none
  | c :: rest => parseStringBody rest (c :: acc)

/-- Characters that may occur in a JSON numeric literal. -/
def isNumChar (c : Char) : Bool :=
  c.isDigit || c = '-' || c = '+' || c = '.' || c = 'e' || c = 'E'

mutual

/-- Recursive-descent JSON value parser, fuelled by the input length. -/
def parseValue : Nat → List Char → Option (JValue × List Char)
  | 0, _ => none
  | Nat.succ fuel, cs =>
    match skipWs cs with
    | '"' :: rest =>
      match parseStringBody rest [] with
      | some (s, rest2) => some (JValue.jstr s, rest2)
      | none => none
    | '\x7b' :: rest =>
      match skipWs rest with
      | '\x7d' :: rest2 => some (JValue.jobj [], rest2)
      | rest2 => parseObjRest fuel rest2 []
    | '[' :: rest =>
      match skipWs rest with
      | ']' :: rest2 => some (JValue.jarr [], rest2)
      | rest2 => parseArrRest fuel rest2 []
    | 't' :: 'r' :: 'u' :: 'e' :: rest => some (JValue.jbool true, rest)
    | 'f' :: 'a' :: 'l' :: 's' :: 'e' :: rest => some (JValue.jbool false, rest)
    | 'n' :: 'u' :: 'l' :: 'l' :: rest => some (JValue.jnull, rest)
    | c :: rest =>
      if c.isDigit || c = '-' then
        let numCs := (c :: rest).takeWhile isNumChar
        let after := (c :: rest).dropWhile isNumChar
        if numCs.isEmpty then none else some (JValue.jnum (String.mk numCs), after)
      else none
    | [] => none

/-- Members of a JSON object after the opening brace (first key expected). -/
def parseObjRest : Nat → List Char → List (String × JValue) → Option (JValue × List Char)
  | 0, _, _ => none
  | Nat.succ fuel, cs, acc =>
    match skipWs cs with
    | '"' :: rest =>
      match parseStringBody rest [] with
      | none => none
      | some (k, rest2) =>
        match skipWs rest2 with
        | ':' :: rest3 =>
          match parseValue fuel rest3 with
          | none => none
          | some (v, rest4) =>
            match skipWs rest4 with
            | ',' :: rest5 => parseObjRest fuel rest5 (acc ++ [(k, v)])
            | '\x7d' :: rest5 => some (JValue.jobj (acc ++ [(k, v)]), rest5)
            | _ => none
        | _ => none
    | _ => none

/-- Elements of a JSON array after the opening bracket (first element
expected). -/
def parseArrRest : Nat → List Char → List JValue → Option (JValue × List Char)
  | 0, _, _ => none
  | Nat.succ fuel, cs, acc =>
    match parseValue fuel cs with
    | none => none
    | some (v, rest) =>
      match skipWs rest with
      | ',' :: rest2 => parseArrRest fuel rest2 (acc ++ [v])
      | ']' :: rest2 => some (JValue.jarr (acc ++ [v]), rest2)
      | _ => none

end

/-- Model of `JSON.parse` on the fragment this program exercises: the parsed
value when the whole input (up to surrounding whitespace) is well formed,
`none` when `JSON.parse` would throw. -/
def jsonParse (s : String) : Option JValue :=
  match parseValue (s.length + 1) s.toList with
  | some (v, rest) => if (skipWs rest).isEmpty then some v else none
  | none => none

/-- Whether `pat` occurs in `cs` starting at index `i`. -/
def occursAt (cs pat : List Char) (i : Nat) : Bool :=
  List.isPrefixOf pat (cs.drop i)

/-- Index of the first occurrence of `pat` in `cs` at or after `start`,
modelling `String.indexOf` as the regex engine uses it. -/
def jsIndexOfFrom (cs pat : List Char) (start : Nat) : Option Nat :=
  ((List.range (cs.length + 1)).filter
    (fun i => decide (start ≤ i) && occursAt cs pat i)).head?

/-- The opening delimiter of the fenced-block regex in
`AnthropicClient.processImages`. -/
def fenceOpen : List Char := ("```json\n").toList

/-- The closing delimiter of the fenced-block regex. -/
def fenceClose : List Char := ("\n```").toList

/-- Model of the first regex match in `AnthropicClient.processImages`
(non-greedy fenced block): the leftmost opening fence that is followed by a
closing fence, paired with its capture group (the text between the fences up
to the first closing fence). Returns `(whole match, group)`. -/
def fencedMatch (cs : List Char) : Option (List Char × List Char) :=
  match ((List.range (cs.length + 1)).filter (fun i =>
      occursAt cs fenceOpen i &&
      (jsIndexOfFrom cs fenceClose (i + fenceOpen.length)).isSome)).head? with
  | none => none
  | some i =>
    match jsIndexOfFrom cs fenceClose (i + fenceOpen.length) with
    | none => none
    | some j =>
      some ((cs.drop i).take (j + fenceClose.length - i),
            (cs.drop (i + fenceOpen.length)).take (j - (i + fenceOpen.length)))

/-- Model of the second regex in `AnthropicClient.processImages` (greedy brace
span): from the first opening brace to the last closing brace after it, when
such a span exists. -/
def braceMatch (cs : List Char) : Option (List Char) :=
  match jsIndexOfFrom cs ['\x7b'] 0 with
  | none => none
  | some i =>
    match ((List.range cs.length).filter
        (fun j => decide (i < j) && occursAt cs ['\x7d'] j)).getLast? with
    | none => none
    | some j => some ((cs.drop i).take (j + 1 - i))

/-- Model of the JSON-extraction block of `AnthropicClient.processImages`
(the Result Interpreter's problem parsing): try the fenced-block regex, then
the brace regex, then the raw text; `jsonMatch[1] || jsonMatch[0]` falls back
to the whole match when the capture group is empty; if `JSON.parse` fails,
return the degraded record whose description is the raw response verbatim. -/
def parseProblem (responseText : String) : JValue :=
  let cs := responseText.toList
  let jsonStr : List Char :=
    match fencedMatch cs with
    | some (whole, grp) => if grp.isEmpty then whole else grp
    | none =>
      match braceMatch cs with
      | some whole => whole
      | none => cs
  match jsonParse (String.mk jsonStr) with
  | some v => v
  | none =>
    JValue.jobj [("title", JValue.jstr ("Extracted Problem")),
                 ("description", JValue.jstr responseText),
                 ("raw_response", JValue.jstr responseText)]

/-- JavaScript property lookup on a parsed value: defined on objects (last
occurrence of the key wins, as for `JSON.parse` and object literals), absent
on every other value. -/
def lookupField (v : JValue) (key : String) : Option JValue :=
  match v with
  | JValue.jobj fields => ((fields.filter (fun kv => kv.1 == key)).getLast?).map (fun kv => kv.2)
  | _ => none

/-- JavaScript truthiness of a `JValue` (numeric falsiness is approximated on
the raw literal; no code under verification exercises numeric truthiness). -/
def jsTruthy : JValue → Bool
  | JValue.jnull => false
  | JValue.jbool b => b
  | JValue.jnum raw => !(raw == "0" || raw == "-0")
  | JValue.jstr s => !(s == "")
  | JValue.jarr _ => true
  | JValue.jobj _ => true

/-- Escape a string for serialization, covering the characters this program's
data can contain (quote, backslash, newline, tab, carriage return). -/
def escapeJsonStr (s : String) : String :=
  String.join (s.toList.map (fun c =>
    if c = '"' then "\\\""
    else if c = '\\' then "\\\\"
    else if c = '\n' then "\\n"
    else if c = '\t' then "\\t"
    else if c = '\r' then "\\r"
    else String.mk [c]))

mutual

/-- Model of `JSON.stringify` on `JValue`. -/
def jsonStringify : JValue → String
  | JValue.jnull => "null"
  | JValue.jbool b => if b then "true" else "false"
  | JValue.jnum raw => raw
  | JValue.jstr s => "\"" ++ escapeJsonStr s ++ "\""
  | JValue.jarr xs => "[" ++ jsonStringifyList xs ++ "]"
  | JValue.jobj fs => "\x7b" ++ jsonStringifyFields fs ++ "\x7d"

/-- Comma-separated serialization of array elements. -/
def jsonStringifyList : List JValue → String
  | [] => ""
  | [x] => jsonStringify x
  | x :: y :: rest => jsonStringify x ++ "," ++ jsonStringifyList (y :: rest)

/-- Comma-separated serialization of object members. -/
def jsonStringifyFields : List (String × JValue) → String
  | [] => ""
  | [kv] => "\"" ++ escapeJsonStr kv.1 ++ "\":" ++ jsonStringify kv.2
  | kv :: kv2 :: rest =>
    "\"" ++ escapeJsonStr kv.1 ++ "\":" ++ jsonStringify kv.2 ++ "," ++
      jsonStringifyFields (kv2 :: rest)

end

mutual

/-- JavaScript string coercion of a `JValue`, as template literals apply it. -/
def jsToString : JValue → String
  | JValue.jnull => "null"
  | JValue.jbool b => if b then "true" else "false"
  | JValue.jnum raw => raw
  | JValue.jstr s => s
  | JValue.jarr xs => jsToStringList xs
  | JValue.jobj _ => "[object Object]"

/-- Array coercion joins the coerced elements with commas. -/
def jsToStringList : List JValue → String
  | [] => ""
  | [x] => jsToString x
  | x :: y :: rest => jsToString x ++ "," ++ jsToStringList (y :: rest)

end

/-- A thrown JavaScript error as seen by the catch blocks of
ProcessingHelper: the message, and whether `axios.isCancel` holds for the
thrown value.  AnthropicClient rethrows every failure as a freshly
constructed `Error` (see `generateResponse`), so `isCancel` is `false` on
every error it propagates. -/
structure JsError where
  message : String
  isCancel : Bool
deriving Repr, DecidableEq

/-- One block of the Anthropic response `content` array. -/
structure ContentBlock where
  type : String
  text : String
deriving Repr, DecidableEq

/-- Outcome of one `axios.post` to the Anthropic API, chosen by the
environment: a successful response (its `content` array), an abort of the
request, an HTTP error response with status and body (the body modelled as
its `JSON.stringify` text, which is all the code uses), or a network failure
with no response. -/
inductive AxiosOutcome where
  | ok (content : List ContentBlock)
  | cancel
  | http (status : Nat) (body : String)
  | network (message : String)
deriving Repr

/-- Concatenation of the text blocks of a successful response, as
`AnthropicClient.generateResponse` builds it. -/
def extractText (content : List ContentBlock) : String :=
  String.intercalate ("\n")
    ((content.filter (fun b => b.type == "text")).map (fun b => b.text))

/-- The text `AnthropicClient.generateResponse` returns for a successful
response: the joined text blocks when the content array is non-empty, the
empty string otherwise. -/
def responseTextOf (content : List ContentBlock) : String :=
  if 0 < content.length then extractText content else ""

/-- Model of `AnthropicClient.generateResponse`: the configuration check,
then the mapping of the axios outcome to either the response text or a thrown
error.  A cancelled request is rethrown as `Error("Request was cancelled")`,
HTTP 401 as `Error("Invalid API key")`, HTTP 429 as
`Error("Rate limit exceeded")`, any other HTTP failure as an `Error` carrying
the status and the stringified body, and a response-less network failure is
rethrown as it came. -/
def generateResponse (configured : Bool) (out : AxiosOutcome) : Except JsError String :=
  if configured = false then Except.error ⟨("Anthropic API key not configured"), false⟩
  else
    match out with
    | AxiosOutcome.ok content => Except.ok (responseTextOf content)
    | AxiosOutcome.cancel => Except.error ⟨("Request was cancelled"), false⟩
    | AxiosOutcome.http status body =>
      if status = 401 then Except.error ⟨("Invalid API key"), false⟩
      else if status = 429 then Except.error ⟨("Rate limit exceeded"), false⟩
      else Except.error ⟨("API error (") ++ toString status ++ ("): ") ++ body, false⟩
    | AxiosOutcome.network msg => Except.error ⟨msg, false⟩

/-- The environment a pipeline run executes in: window availability, client
configuration, the behaviour of the credit read, the resolved language
preference (`getLanguage`, defaulting to python on failure), and the file
reader used to turn queued screenshot paths into base64 payloads. -/
structure Env where
  windowPresent : Bool
  windowDestroyed : Bool
  configured : Bool
  creditsReadFails : Bool
  language : String
  readFile : String → String

/-- Model of `AnthropicClient.processImages`: configuration and non-empty
input checks before any network attempt, one gateway call, and the
JSON-extraction of the response via `parseProblem`.  The second component
counts HTTP calls actually attempted. -/
def processImages (env : Env) (imageDataList : List String) (out : AxiosOutcome) :
    Except JsError JValue × Nat :=
  if env.configured = false then (Except.error ⟨("Anthropic API key not configured"), false⟩, 0)
  else if imageDataList.isEmpty then (Except.error ⟨("No images provided"), false⟩, 0)
  else
    match generateResponse env.configured out with
    | Except.error e => (Except.error e, 1)
    | Except.ok text => (Except.ok (parseProblem text), 1)

/-- Model of `AnthropicClient.generateSolution`: configuration check, one
gateway call, and the structured result record (the prompt construction has
no observable effect and is elided). -/
def generateSolution (env : Env) (problemInfo : JValue) (out : AxiosOutcome) :
    Except JsError JValue × Nat :=
  if env.configured = false then (Except.error ⟨("Anthropic API key not configured"), false⟩, 0)
  else
    match generateResponse env.configured out with
    | Except.error e => (Except.error e, 1)
    | Except.ok text =>
      (Except.ok (JValue.jobj [("solution", JValue.jstr text),
                               ("language", JValue.jstr env.language)]), 1)

/-- Model of `AnthropicClient.debugSolution`: configuration check, one
gateway call, and the structured debug record.  The problem text, existing
solution and error description only shape the prompt and have no observable
effect on the result. -/
def debugSolution (env : Env) (problemInfo : JValue)
    (existingSolution errorOrFailingTests : String) (out : AxiosOutcome) :
    Except JsError JValue × Nat :=
  if env.configured = false then (Except.error ⟨("Anthropic API key not configured"), false⟩, 0)
  else
    match generateResponse env.configured out with
    | Except.error e => (Except.error e, 1)
    | Except.ok text =>
      (Except.ok (JValue.jobj [("debug_solution", JValue.jstr text),
                               ("language", JValue.jstr env.language)]), 1)

/-- Events sent to the renderer over the Notification Channel
(`PROCESSING_EVENTS` plus `credits-updated` and `reset-view`). -/
inductive Event where
  | unauthorized
  | noScreenshots
  | outOfCredits
  | initialStart
  | problemExtracted (info : JValue)
  | solutionSuccess (data : JValue)
  | solutionError (message : String)
  | resetView
  | debugStart
  | debugSuccess (data : JValue)
  | debugError (message : String)
  | creditsUpdated (credits : Int)
deriving Repr

/-- Orchestrator-visible application state: the current view, the stored
ProblemInfo, the has-been-debugged flag, the renderer credits global
(`none` models a value that is not a number), both screenshot queues, and
whether an AbortController of each kind is currently held. -/
structure AppState where
  view : String
  problemInfo : Option JValue
  hasDebugged : Bool
  creditsVar : Option Int
  screenshotQueue : List String
  extraScreenshotQueue : List String
  procController : Bool
  extraController : Bool
deriving Repr

/-- Model of `ProcessingHelper.getCredits`: 0 when the main window is absent,
when the renderer read throws, or when the stored value is not a number;
otherwise the stored number. -/
def getCredits (env : Env) (st : AppState) : Int :=
  if env.windowPresent = false then 0
  else if env.creditsReadFails = true then 0
  else
    match st.creditsVar with
    | none => 0
    | some n => n

/-- Model of the `decrement-credits` IPC handler: decrement the renderer
counter by one and emit `credits-updated` when the current value is positive,
otherwise do nothing. -/
def decrementCredits (st : AppState) : AppState × List Event :=
  match st.creditsVar with
  | some n =>
    if 0 < n then ({ st with creditsVar := some (n - 1) }, [Event.creditsUpdated (n - 1)])
    else (st, [])
  | none => (st, [])

/-- Whitespace as JavaScript's `String.prototype.trim` strips it (ASCII
subset; the exotic unicode spaces do not occur in this pipeline's data). -/
def jsWhitespace (c : Char) : Bool :=
  c = ' ' || c = '\t' || c = '\n' || c = '\r' || c = '\x0b' || c = '\x0c'

/-- Model of JavaScript's `String.prototype.trim`: drop leading and trailing
whitespace. -/
def jsTrim (s : String) : String :=
  String.mk (((s.toList.dropWhile jsWhitespace).reverse.dropWhile jsWhitespace).reverse)

/-- The fallback arm of the existing-solution extraction in
`ProcessingHelper.processExtraScreenshotsHelper`: a truthy
`problemInfo.solution_data` whose `solution` member is a truthy string. -/
def solutionDataFallback (pinfo : JValue) : String :=
  match lookupField pinfo ("solution_data") with
  | some sd =>
    if jsTruthy sd then
      match lookupField sd ("solution") with
      | some (JValue.jstr s) => if s == "" then "" else s
      | _ => ""
    else ""
  | none => ""

/-- The existing-solution extraction of
`ProcessingHelper.processExtraScreenshotsHelper`: `problemInfo.solution` when
it is a truthy string with non-blank trim, else the `solution_data.solution`
fallback, else the empty string (which the code treats as no solution). -/
def existingSolutionOf (pinfo : JValue) : String :=
  match lookupField pinfo ("solution") with
  | some (JValue.jstr s) =>
    if jsTruthy (JValue.jstr s) && decide (0 < (jsTrim s).length) then s
    else solutionDataFallback pinfo
  | _ => solutionDataFallback pinfo

/-- The error-description coercion of
`ProcessingHelper.processExtraScreenshotsHelper`: the error data itself when
it is a string, else its truthy `description` member coerced to text, else
`JSON.stringify` of the whole record. -/
def errDescription (errorData : JValue) : String :=
  match errorData with
  | JValue.jstr s => s
  | other =>
    match lookupField other ("description") with
    | some d => if jsTruthy d then jsToString d else jsonStringify other
    | none => jsonStringify other

/-- The ProblemInfo update of
`ProcessingHelper.processExtraScreenshotsHelper`: the object-literal spread
`.. problemInfo, debug_solution, debug_data ..`.  Later keys override earlier
ones; a non-object ProblemInfo cannot reach this point because the
existing-solution check fails first, and is merged into a fresh record. -/
def mergeDebug (pinfo debugResult : JValue) : JValue :=
  let dsol : JValue :=
    match lookupField debugResult ("debug_solution") with
    | some v => v
    | none => JValue.jnull
  match pinfo with
  | JValue.jobj fields =>
    JValue.jobj ((fields.filter
        (fun kv => !(kv.1 == "debug_solution") && !(kv.1 == "debug_data")))
      ++ [("debug_solution", dsol), ("debug_data", debugResult)])
  | _ => JValue.jobj [("debug_solution", dsol), ("debug_data", debugResult)]

/-- Result of `ProcessingHelper.generateSolutionsHelper`: the returned
`success`/`error`/`data` record plus the events it sent and the HTTP calls it
made.  The function never mutates orchestrator state. -/
structure GenOut where
  success : Bool
  error : String
  data : JValue
  events : List Event
  calls : Nat
deriving Repr

/-- Model of `ProcessingHelper.generateSolutionsHelper`, called with the main
window present.  A missing ProblemInfo is thrown and caught by the function's
own catch, which emits `solution-error`; a missing configuration returns an
error record without emitting; a failed gateway call emits `solution-error`
and returns the failure (the `axios.isCancel` branch returns silently, and is
unreachable because the client rethrows cancellations as plain errors). -/
def generateSolutionsHelper (env : Env) (st : AppState) (out2 : AxiosOutcome) : GenOut :=
  match st.problemInfo with
  | none =>
    { success := false, error := ("No problem info available"), data := JValue.jnull,
      events := [Event.solutionError ("No problem info available")], calls := 0 }
  | some pinfo =>
    if env.configured = false then
      { success := false,
        error := ("Anthropic API key not configured. Please check your .zshrc file or environment variables."),
        data := JValue.jnull, events := [], calls := 0 }
    else
      match generateSolution env pinfo out2 with
      | (Except.error e, n) =>
        if e.isCancel then
          { success := false, error := ("Solution generation was canceled."),
            data := JValue.jnull, events := [], calls := n }
        else
          { success := false,
            error := (if e.message == "" then "Failed to generate solution" else e.message),
            data := JValue.jnull, events := [Event.solutionError e.message], calls := n }
      | (Except.ok sol, n) =>
        { success := true, error := "", data := sol, events := [], calls := n }

/-- Result of the two retry-loop helpers of ProcessingHelper: the returned
record, the state after the helper's mutations, the events it sent and the
HTTP calls it made. -/
structure HelperOut where
  success : Bool
  error : String
  data : JValue
  st : AppState
  events : List Event
  calls : Nat
deriving Repr

/-- Model of `ProcessingHelper.processScreenshotsHelper`, called with the
main window present.  `MAX_RETRIES` is 0, so the retry loop runs exactly one
iteration: every catch either returns the failure or rethrows to the outer
catch, which returns it (`retryCount >= MAX_RETRIES` always holds).  On a
successful extraction the ProblemInfo is stored and `problem-extracted`
emitted before the solve step; on a successful solve the auxiliary queue is
cleared and `solution-success` emitted. -/
def processScreenshotsHelper (env : Env) (st : AppState) (images : List String)
    (out1 out2 : AxiosOutcome) : HelperOut :=
  if env.configured = false then
    { success := false,
      error := ("Anthropic API key not configured. Please check your .zshrc file or environment variables."),
      data := JValue.jnull, st := st, events := [], calls := 0 }
  else
    match processImages env images out1 with
    | (Except.error e, n) =>
      if e.isCancel then
        { success := false, error := ("Processing was canceled by the user."),
          data := JValue.jnull, st := st, events := [], calls := n }
      else
        { success := false,
          error := (if e.message == "" then "Server error. Please try again." else e.message),
          data := JValue.jnull, st := st, events := [], calls := n }
    | (Except.ok pinfo, n1) =>
      let st1 : AppState := { st with problemInfo := some pinfo }
      let g := generateSolutionsHelper env st1 out2
      if g.success then
        { success := true, error := "", data := g.data,
          st := { st1 with extraScreenshotQueue := [] },
          events := [Event.problemExtracted pinfo] ++ g.events ++ [Event.solutionSuccess g.data],
          calls := n1 + g.calls }
      else
        { success := false,
          error := (if g.error == "" then "Failed to generate solutions" else g.error),
          data := JValue.jnull, st := st1,
          events := [Event.problemExtracted pinfo] ++ g.events,
          calls := n1 + g.calls }

/-- Model of `ProcessingHelper.processExtraScreenshotsHelper`, called with
the main window present.  Again `MAX_RETRIES` is 0 and the loop runs once.
Precondition failures (no ProblemInfo, no existing solution) are thrown and
reach the outer catch, which emits `debug-error` before returning the
failure; a missing configuration returns without emitting; gateway failures
emit `debug-error` from the outer catch (the `axios.isCancel` branches return
silently and are unreachable, as the client rethrows cancellations as plain
errors); a full success stores the merged ProblemInfo and emits
`debug-success`. -/
def processExtraScreenshotsHelper (env : Env) (st : AppState) (images : List String)
    (out1 out2 : AxiosOutcome) : HelperOut :=
  match st.problemInfo with
  | none =>
    { success := false, error := ("No problem info available"), data := JValue.jnull,
      st := st, events := [Event.debugError ("No problem info available")], calls := 0 }
  | some pinfo =>
    let existingSolution := existingSolutionOf pinfo
    if existingSolution == "" then
      { success := false, error := ("No existing solution found to debug"), data := JValue.jnull,
        st := st, events := [Event.debugError ("No existing solution found to debug")], calls := 0 }
    else if env.configured = false then
      { success := false,
        error := ("Anthropic API key not configured. Please check your .zshrc file or environment variables."),
        data := JValue.jnull, st := st, events := [], calls := 0 }
    else
      match processImages env images out1 with
      | (Except.error e, n) =>
        if e.isCancel then
          { success := false, error := ("Debug processing was canceled by the user."),
            data := JValue.jnull, st := st, events := [], calls := n }
        else
          { success := false,
            error := (if e.message == "" then "Debug error. Please try again." else e.message),
            data := JValue.jnull, st := st,
            events := [Event.debugError (if e.message == "" then "Debug error. Please try again." else e.message)],
            calls := n }
      | (Except.ok errorData, n1) =>
        match debugSolution env pinfo existingSolution (errDescription errorData) out2 with
        | (Except.error e, n2) =>
          if e.isCancel then
            { success := false, error := ("Debug processing was canceled by the user."),
              data := JValue.jnull, st := st, events := [], calls := n1 + n2 }
          else
            { success := false,
              error := (if e.message == "" then "Debug error. Please try again." else e.message),
              data := JValue.jnull, st := st,
              events := [Event.debugError (if e.message == "" then "Debug error. Please try again." else e.message)],
              calls := n1 + n2 }
        | (Except.ok debugResult, n2) =>
          { success := true, error := "", data := debugResult,
            st := { st with problemInfo := some (mergeDebug pinfo debugResult) },
            events := [Event.debugSuccess debugResult], calls := n1 + n2 }

/-- Result of one invocation of a public ProcessingHelper pipeline method:
final state, events sent, HTTP calls made, and the `result.success` value of
the inner helper (false when the method stopped before invoking it). -/
structure RunOut where
  st : AppState
  events : List Event
  calls : Nat
  success : Bool
deriving Repr

/-- Model of `ProcessingHelper.processScreenshots` (the Solve pipeline entry
when the view is "queue"; with any other view it drives a debug round over
the combined queues).  Absent main window: silent return.  Credits below 1:
emit `out-of-credits` and stop.  In queue view, `initial-start` is emitted
before the emptiness check; a successful helper run switches the view to
"solutions" and decrements the credits; a failed one emits `solution-error`
with the helper's error. -/
def processScreenshots (env : Env) (st : AppState) (out1 out2 : AxiosOutcome) : RunOut :=
  if env.windowPresent = false then ⟨st, [], 0, false⟩
  else if getCredits env st < 1 then ⟨st, [Event.outOfCredits], 0, false⟩
  else if st.view = "queue" then
    if st.screenshotQueue.isEmpty then ⟨st, [Event.initialStart, Event.noScreenshots], 0, false⟩
    else
      let st0 : AppState := { st with procController := true }
      let h := processScreenshotsHelper env st0 (st.screenshotQueue.map env.readFile) out1 out2
      if h.success then
        let d := decrementCredits { h.st with view := ("solutions") }
        ⟨d.1, [Event.initialStart] ++ h.events ++ d.2, h.calls, true⟩
      else
        ⟨h.st, [Event.initialStart] ++ h.events ++ [Event.solutionError h.error], h.calls, false⟩
  else
    if st.extraScreenshotQueue.isEmpty then ⟨st, [Event.noScreenshots], 0, false⟩
    else
      let st0 : AppState := { st with extraController := true }
      let h := processExtraScreenshotsHelper env st0
        ((st.screenshotQueue ++ st.extraScreenshotQueue).map env.readFile) out1 out2
      if h.success then
        ⟨{ h.st with hasDebugged := true, extraController := false },
          [Event.debugStart] ++ h.events ++ [Event.debugSuccess h.data], h.calls, true⟩
      else
        ⟨{ h.st with extraController := false },
          [Event.debugStart] ++ h.events ++ [Event.debugError h.error], h.calls, false⟩

/-- Model of `ProcessingHelper.processExtraScreenshots` (the Debug pipeline
entry).  Absent main window: silent return.  Credits below 1: emit
`out-of-credits` and stop.  `debug-start` is emitted before the view check; a
view other than "solutions" logs a warning and returns with no further event;
an empty auxiliary queue emits `no-screenshots`; a successful helper run
switches the view to "debug", sets the has-been-debugged flag and decrements
the credits; a failed one emits `debug-error` with the helper's error.  The
abort controller created for the run is never cleared (the method has no
`finally`). -/
def processExtraScreenshots (env : Env) (st : AppState) (out1 out2 : AxiosOutcome) : RunOut :=
  if env.windowPresent = false then ⟨st, [], 0, false⟩
  else if getCredits env st < 1 then ⟨st, [Event.outOfCredits], 0, false⟩
  else if st.view = "solutions" then
    if st.extraScreenshotQueue.isEmpty then ⟨st, [Event.debugStart, Event.noScreenshots], 0, false⟩
    else
      let st0 : AppState := { st with extraController := true }
      let h := processExtraScreenshotsHelper env st0
        (st.extraScreenshotQueue.map env.readFile) out1 out2
      if h.success then
        let d := decrementCredits { h.st with view := ("debug"), hasDebugged := true }
        ⟨d.1, [Event.debugStart] ++ h.events ++ d.2, h.calls, true⟩
      else
        ⟨h.st, [Event.debugStart] ++ h.events ++ [Event.debugError h.error], h.calls, false⟩
  else ⟨st, [Event.debugStart], 0, false⟩

/-- Model of `ProcessingHelper.cancelOngoingRequests`: abort and drop both
controllers, reset the has-been-debugged flag, clear ProblemInfo — all of
this unconditionally — and emit `no-screenshots` only when at least one
controller was present and the main window exists and is not destroyed. -/
def cancelOngoingRequests (st : AppState) (windowPresent windowDestroyed : Bool) :
    AppState × List Event :=
  let wasCancelled := st.procController || st.extraController
  let st2 : AppState :=
    { st with
      procController := false
      extraController := false
      hasDebugged := false
      problemInfo := none }
  if wasCancelled && windowPresent && !windowDestroyed then (st2, [Event.noScreenshots])
  else (st2, [])

/-- Whether an event is the Solve pipeline's terminal error event. -/
def isSolutionErrorEv : Event → Bool
  | Event.solutionError _ => true
  | _ => false

/-- Whether an event is the Debug pipeline's terminal error event. -/
def isDebugErrorEv : Event → Bool
  | Event.debugError _ => true
  | _ => false

/-- Whether an event is the neutral `no-screenshots` event. -/
def isNoScreenshotsEv : Event → Bool
  | Event.noScreenshots => true
  | _ => false

/-- Number of `solution-error` events in a stream. -/
def countSolutionError (es : List Event) : Nat := (es.filter isSolutionErrorEv).length

/-- Number of `debug-error` events in a stream. -/
def countDebugError (es : List Event) : Nat := (es.filter isDebugErrorEv).length

/-- Number of `no-screenshots` events in a stream. -/
def countNoScreenshots (es : List Event) : Nat := (es.filter isNoScreenshotsEv).length

/-- A standard healthy environment for concrete runs: window present and
alive, client configured, credit reads succeed. -/
def envStd : Env :=
  { windowPresent := true, windowDestroyed := false, configured := true,
    creditsReadFails := false, language := "python", readFile := fun p => p }

/-- An environment whose main window is absent. -/
def envNoWindow : Env := { envStd with windowPresent := false }

/-- A gateway response with a single text block. -/
def helloOut : AxiosOutcome := AxiosOutcome.ok [⟨("text"), ("hello")⟩]

/-- A queue-view state ready to run the Solve pipeline: three credits, one
primary screenshot, one auxiliary screenshot, nothing in flight. -/
def stQueue : AppState :=
  { view := "queue", problemInfo := none, hasDebugged := false,
    creditsVar := some 3, screenshotQueue := ["a.png"],
    extraScreenshotQueue := ["b.png"], procController := false,
    extraController := false }

/-- The queue-view state with zero credits. -/
def stNoCredit : AppState := { stQueue with creditsVar := some 0 }

/-- The queue-view state whose renderer credits global is not a number. -/
def stBadCredits : AppState := { stQueue with creditsVar := none }

/-- An idle solutions-view state with a stored ProblemInfo, a set
has-been-debugged flag and no request in flight. -/
def stIdle : AppState :=
  { view := "solutions", problemInfo := some (JValue.jstr ("info")),
    hasDebugged := true, creditsVar := some 2, screenshotQueue := [],
    extraScreenshotQueue := [], procController := false,
    extraController := false }

/-- The idle state with a Solve request in flight. -/
def stInFlight : AppState := { stIdle with procController := true }

/-- A solutions-view state with an auxiliary screenshot but no stored
ProblemInfo. -/
def stSolNoInfo : AppState :=
  { view := "solutions", problemInfo := none, hasDebugged := false,
    creditsVar := some 3, screenshotQueue := [],
    extraScreenshotQueue := ["e.png"], procController := false,
    extraController := false }

/-- A ProblemInfo record carrying a non-blank solution string. -/
def pinfoSolved : JValue :=
  JValue.jobj [("title", JValue.jstr ("T")), ("solution", JValue.jstr ("code"))]

/-- A solutions-view state ready to run the Debug pipeline. -/
def stSolved : AppState :=
  { view := "solutions", problemInfo := some pinfoSolved, hasDebugged := false,
    creditsVar := some 2, screenshotQueue := ["a.png"],
    extraScreenshotQueue := ["e.png"], procController := false,
    extraController := false }

/-- The state `cancelOngoingRequests` leaves behind, regardless of what was
in flight. -/
def cancelledState (st : AppState) : AppState :=
  { st with procController := false, extraController := false, hasDebugged := false, problemInfo := none }

/-- C8: the Result Interpreter's problem parsing never throws on a non-empty
response (the embedding `parseProblem` is a total function): on the fenced
input it parses the fenced block and yields a record whose title is
"Two Sum", and on "not json at all" it yields the degraded record whose
description field equals the input string exactly. -/
theorem C8_parseProblem_behaviour :
    lookupField (parseProblem ("```json\n\x7b\"title\":\"Two Sum\"\x7d\n```")) ("title")
      = some (JValue.jstr ("Two Sum"))
    ∧ parseProblem ("not json at all")
      = JValue.jobj [("title", JValue.jstr ("Extracted Problem")),
                     ("description", JValue.jstr ("not json at all")),
                     ("raw_response", JValue.jstr ("not json at all"))] :=
  ⟨rfl, rfl⟩

/-- C9 counterexample: a rejected credential (HTTP 401) is mapped to the
fixed message "Invalid API key"; the result is identical for two different
response bodies, so the auth error cannot carry the upstream raw body (nor
the status) as the claim states. -/
theorem C9_counterexample :
    generateResponse true (AxiosOutcome.http 401 ("raw-diagnostic-body"))
      = Except.error ⟨("Invalid API key"), false⟩
    ∧ generateResponse true (AxiosOutcome.http 401 ("raw-diagnostic-body"))
      = generateResponse true (AxiosOutcome.http 401 ("another-body"))
    ∧ ("raw-diagnostic-body") ≠ ("another-body") :=
  ⟨rfl, rfl, by decide⟩

/-- C9 amended: HTTP 401 yields the fixed message "Invalid API key" and HTTP
429 the fixed message "Rate limit exceeded", neither carrying status or body;
every other HTTP status yields a transport-style error that does carry the
upstream status and stringified body. -/
theorem C9_amended (status : Nat) (body : String)
    (h1 : status ≠ 401) (h2 : status ≠ 429) :
    generateResponse true (AxiosOutcome.http status body)
      = Except.error ⟨("API error (") ++ toString status ++ ("): ") ++ body, false⟩
    ∧ generateResponse true (AxiosOutcome.http 401 body)
      = Except.error ⟨("Invalid API key"), false⟩
    ∧ generateResponse true (AxiosOutcome.http 429 body)
      = Except.error ⟨("Rate limit exceeded"), false⟩ := by
  refine ⟨?_, rfl, rfl⟩
  simp [generateResponse, h1, h2]

/-- Witness for C9 amended at status 500 and body "oops". -/
theorem C9_amended_witness :
    generateResponse true (AxiosOutcome.http 500 ("oops"))
      = Except.error ⟨("API error (500): oops"), false⟩ :=
  (C9_amended 500 ("oops") (by decide) (by decide)).1

/-- C5: any Solve or Debug invocation with the window present and fewer than
one credit emits exactly the out-of-credits event, changes no state, and
makes no gateway call. -/
theorem C5_out_of_credits (env : Env) (st : AppState) (o1 o2 o3 o4 : AxiosOutcome)
    (hw : env.windowPresent = true) (hc : getCredits env st < 1) :
    processScreenshots env st o1 o2 = ⟨st, [Event.outOfCredits], 0, false⟩
    ∧ processExtraScreenshots env st o3 o4 = ⟨st, [Event.outOfCredits], 0, false⟩ := by
  constructor <;> simp [processScreenshots, processExtraScreenshots, hw, hc]

/-- Witness for C5 on the zero-credit queue state. -/
theorem C5_out_of_credits_witness :
    processScreenshots envStd stNoCredit AxiosOutcome.cancel AxiosOutcome.cancel
      = ⟨stNoCredit, [Event.outOfCredits], 0, false⟩
    ∧ processExtraScreenshots envStd stNoCredit AxiosOutcome.cancel AxiosOutcome.cancel
      = ⟨stNoCredit, [Event.outOfCredits], 0, false⟩ :=
  C5_out_of_credits envStd stNoCredit _ _ _ _ rfl (by decide)

/-- C10 counterexample: with the main window absent the credit read does
return 0, but both pipeline entries return silently — no out-of-credits
event is emitted, contradicting the claim for the window-absent case. -/
theorem C10_counterexample :
    getCredits envNoWindow stBadCredits = 0
    ∧ (processScreenshots envNoWindow stBadCredits AxiosOutcome.cancel AxiosOutcome.cancel).events = []
    ∧ (processExtraScreenshots envNoWindow stBadCredits AxiosOutcome.cancel AxiosOutcome.cancel).events = [] :=
  ⟨rfl, rfl, rfl⟩

/-- C10 amended: the credit read returns 0 in all three situations; with the
window present, a failing read or a non-numeric stored value makes both
pipeline entries emit out-of-credits with zero gateway calls and no state
change; with the window absent both entries return silently, still with zero
gateway calls and no state change. -/
theorem C10_amended (env : Env) (st : AppState) (o1 o2 o3 o4 : AxiosOutcome) :
    (env.windowPresent = false →
      getCredits env st = 0
      ∧ processScreenshots env st o1 o2 = ⟨st, [], 0, false⟩
      ∧ processExtraScreenshots env st o3 o4 = ⟨st, [], 0, false⟩)
    ∧ (env.windowPresent = true →
      env.creditsReadFails = true ∨ st.creditsVar = none →
      getCredits env st = 0
      ∧ processScreenshots env st o1 o2 = ⟨st, [Event.outOfCredits], 0, false⟩
      ∧ processExtraScreenshots env st o3 o4 = ⟨st, [Event.outOfCredits], 0, false⟩) := by
  constructor
  · intro hw
    refine ⟨?_, ?_, ?_⟩ <;>
      simp [getCredits, processScreenshots, processExtraScreenshots, hw]
  · intro hw hr
    have h0 : getCredits env st = 0 := by
      rcases hr with h | h <;> simp [getCredits, hw, h]
    refine ⟨h0, ?_, ?_⟩ <;>
      simp [processScreenshots, processExtraScreenshots, hw, h0]

/-- Witness for C10 amended: the window-absent case on a healthy state and
the non-numeric-credits case on a present window. -/
theorem C10_amended_witness :
    getCredits envNoWindow stQueue = 0
    ∧ getCredits envStd stBadCredits = 0
    ∧ processScreenshots envStd stBadCredits AxiosOutcome.cancel AxiosOutcome.cancel
      = ⟨stBadCredits, [Event.outOfCredits], 0, false⟩ :=
  ⟨((C10_amended envNoWindow stQueue AxiosOutcome.cancel AxiosOutcome.cancel
      AxiosOutcome.cancel AxiosOutcome.cancel).1 rfl).1,
   ((C10_amended envStd stBadCredits AxiosOutcome.cancel AxiosOutcome.cancel
      AxiosOutcome.cancel AxiosOutcome.cancel).2 rfl (Or.inr rfl)).1,
   ((C10_amended envStd stBadCredits AxiosOutcome.cancel AxiosOutcome.cancel
      AxiosOutcome.cancel AxiosOutcome.cancel).2 rfl (Or.inr rfl)).2.1⟩

/-- C6 counterexample: calling cancelOngoingRequests with nothing in flight
emits no event, but it does change state — it clears the stored ProblemInfo
and resets the has-been-debugged flag — contradicting the no-op half of the
claim. -/
theorem C6_counterexample :
    (cancelOngoingRequests stIdle true false).2 = []
    ∧ (cancelOngoingRequests stIdle true false).1.problemInfo = none
    ∧ stIdle.problemInfo ≠ none
    ∧ (cancelOngoingRequests stIdle true false).1.hasDebugged = false
    ∧ stIdle.hasDebugged = true := by
  refine ⟨rfl, rfl, ?_, rfl, rfl⟩
  simp [stIdle]

/-- C6 amended: cancelOngoingRequests always drops both controllers, resets
the has-been-debugged flag and clears ProblemInfo; it emits no event when
nothing was in flight, and emits exactly one no-screenshots event when at
least one request was in flight and the window is present and not
destroyed. -/
theorem C6_amended (st : AppState) (wp wd : Bool) :
    (st.procController = false → st.extraController = false →
      cancelOngoingRequests st wp wd = (cancelledState st, []))
    ∧ (st.procController = true ∨ st.extraController = true →
      wp = true → wd = false →
      cancelOngoingRequests st wp wd = (cancelledState st, [Event.noScreenshots])) := by
  constructor
  · intro hp he
    simp [cancelOngoingRequests, cancelledState, hp, he]
  · intro hc hw hd
    rcases hc with h | h <;> simp [cancelOngoingRequests, cancelledState, h, hw, hd]

/-- Witness for C6 amended: the idle state emits nothing; the in-flight
state emits one no-screenshots event. -/
theorem C6_amended_witness :
    cancelOngoingRequests stIdle true false = (cancelledState stIdle, [])
    ∧ cancelOngoingRequests stInFlight true false
      = (cancelledState stInFlight, [Event.noScreenshots]) :=
  ⟨(C6_amended stIdle true false).1 rfl rfl,
   (C6_amended stInFlight true false).2 (Or.inl rfl) rfl rfl⟩

/-- C7 counterexample: runDebug outside the solutions view (queue view,
credits available) emits only debug-start — no MissingSolution-style error
event at all — and returns silently; the zero-gateway-calls half is the only
part that holds on this path. -/
theorem C7_counterexample :
    (processExtraScreenshots envStd stQueue AxiosOutcome.cancel AxiosOutcome.cancel).events
      = [Event.debugStart]
    ∧ countDebugError
        (processExtraScreenshots envStd stQueue AxiosOutcome.cancel AxiosOutcome.cancel).events = 0
    ∧ (processExtraScreenshots envStd stQueue AxiosOutcome.cancel AxiosOutcome.cancel).calls = 0 :=
  ⟨rfl, rfl, rfl⟩

/-- C1 counterexample: with the cancellation token triggered between the
extract call and the solve call (extract succeeds, solve call aborts), the
Solve run emits solution-error twice — carrying the client's "Request was
cancelled" message — and emits no no-screenshots event itself, contradicting
the claim that cancellation surfaces as the neutral event and never as
SolutionError. -/
theorem C1_counterexample :
    countSolutionError
      (processScreenshots envStd stQueue helloOut AxiosOutcome.cancel).events = 2
    ∧ countNoScreenshots
      (processScreenshots envStd stQueue helloOut AxiosOutcome.cancel).events = 0 :=
  ⟨rfl, rfl⟩

/-- C2 counterexample: a Solve run whose solve step fails with HTTP 500 is a
failing pipeline run that emits the terminal solution-error event twice
(once from generateSolutionsHelper, once from processScreenshots), not
exactly once. -/
theorem C2_counterexample :
    (processScreenshots envStd stQueue helloOut (AxiosOutcome.http 500 ("boom"))).success = false
    ∧ countSolutionError
      (processScreenshots envStd stQueue helloOut (AxiosOutcome.http 500 ("boom"))).events = 2 :=
  ⟨rfl, rfl⟩

/-- C7 amended: with the window present and a credit available, runDebug
outside the solutions view emits only debug-start and returns silently with
zero gateway calls and no state change; in the solutions view with a
non-empty auxiliary queue, a missing ProblemInfo or an absent/blank existing
solution emits debug-error twice (once from the helper's catch, once from
the caller) with zero gateway calls. -/
theorem C7_amended (env : Env) (st : AppState) (o1 o2 : AxiosOutcome)
    (hw : env.windowPresent = true) (hc : ¬ getCredits env st < 1) :
    (st.view ≠ "solutions" →
      processExtraScreenshots env st o1 o2 = ⟨st, [Event.debugStart], 0, false⟩)
    ∧ (st.view = "solutions" → st.extraScreenshotQueue.isEmpty = false →
      st.problemInfo = none →
      processExtraScreenshots env st o1 o2
        = ⟨{ st with extraController := true },
           [Event.debugStart, Event.debugError ("No problem info available"),
            Event.debugError ("No problem info available")], 0, false⟩)
    ∧ (∀ p, st.view = "solutions" → st.extraScreenshotQueue.isEmpty = false →
      st.problemInfo = some p → existingSolutionOf p = "" →
      processExtraScreenshots env st o1 o2
        = ⟨{ st with extraController := true },
           [Event.debugStart, Event.debugError ("No existing solution found to debug"),
            Event.debugError ("No existing solution found to debug")], 0, false⟩) := by
  refine ⟨?_, ?_, ?_⟩
  · intro hv
    simp [processExtraScreenshots, hw, hc, hv]
  · intro hv hq hpi
    simp [processExtraScreenshots, processExtraScreenshotsHelper, hw, hc, hv, hq, hpi]
  · intro p hv hq hpi hsol
    simp [processExtraScreenshots, processExtraScreenshotsHelper, hw, hc, hv, hq, hpi, hsol]

/-- Witness for C7 amended: the queue-view state and the solutions-view
state without ProblemInfo. -/
theorem C7_amended_witness :
    processExtraScreenshots envStd stQueue AxiosOutcome.cancel AxiosOutcome.cancel
      = ⟨stQueue, [Event.debugStart], 0, false⟩
    ∧ processExtraScreenshots envStd stSolNoInfo AxiosOutcome.cancel AxiosOutcome.cancel
      = ⟨{ stSolNoInfo with extraController := true },
         [Event.debugStart, Event.debugError ("No problem info available"),
          Event.debugError ("No problem info available")], 0, false⟩ :=
  ⟨(C7_amended envStd stQueue AxiosOutcome.cancel AxiosOutcome.cancel rfl
      (by decide)).1 (by decide),
   (C7_amended envStd stSolNoInfo AxiosOutcome.cancel AxiosOutcome.cancel rfl
      (by decide)).2.1 rfl rfl rfl⟩

/-- C1 amended: when the Solve pipeline is cancelled between the extract and
the solve call (extract succeeds, solve call aborts), the run stores the
extracted record as ProblemInfo without ever merging a solution into it,
leaves the credits untouched, and emits initial-start, problem-extracted and
then solution-error twice carrying the client's "Request was cancelled"
message; the neutral no-screenshots event is emitted only by the separate
cancelOngoingRequests invocation (see the C6 theorems), never by the run
itself. -/
theorem C1_amended (env : Env) (st : AppState) (c1 : List ContentBlock)
    (hw : env.windowPresent = true) (hc : ¬ getCredits env st < 1)
    (hv : st.view = "queue") (hq : st.screenshotQueue.isEmpty = false)
    (hcf : env.configured = true) :
    (processScreenshots env st (AxiosOutcome.ok c1) AxiosOutcome.cancel).events
      = [Event.initialStart,
         Event.problemExtracted (parseProblem (responseTextOf c1)),
         Event.solutionError ("Request was cancelled"),
         Event.solutionError ("Request was cancelled")]
    ∧ (processScreenshots env st (AxiosOutcome.ok c1) AxiosOutcome.cancel).st.problemInfo
      = some (parseProblem (responseTextOf c1))
    ∧ (processScreenshots env st (AxiosOutcome.ok c1) AxiosOutcome.cancel).st.creditsVar
      = st.creditsVar := by
  have hq2 : (st.screenshotQueue.map env.readFile).isEmpty = false := by
    cases hqq : st.screenshotQueue with
    | nil => rw [hqq] at hq; simp at hq
    | cons a qs => simp [hqq]
  refine ⟨?_, ?_, ?_⟩ <;>
    simp [processScreenshots, processScreenshotsHelper, processImages,
          generateSolutionsHelper, generateSolution, generateResponse,
          hw, hc, hv, hq, hq2, hcf]

/-- Witness for C1 amended on the concrete queue state with a single text
block response. -/
theorem C1_amended_witness :
    (processScreenshots envStd stQueue helloOut AxiosOutcome.cancel).events
      = [Event.initialStart,
         Event.problemExtracted (parseProblem (responseTextOf [⟨("text"), ("hello")⟩])),
         Event.solutionError ("Request was cancelled"),
         Event.solutionError ("Request was cancelled")]
    ∧ (processScreenshots envStd stQueue helloOut AxiosOutcome.cancel).st.problemInfo
      = some (parseProblem (responseTextOf [⟨("text"), ("hello")⟩]))
    ∧ (processScreenshots envStd stQueue helloOut AxiosOutcome.cancel).st.creditsVar
      = stQueue.creditsVar :=
  C1_amended envStd stQueue [⟨("text"), ("hello")⟩] rfl (by decide) rfl rfl rfl

/-- C3: every fully successful Solve pipeline run (queue view, helper
returned success) implies at least one credit was available; it switches the
view to "solutions", clears the auxiliary screenshot queue, and decrements
the credits by exactly one. -/
theorem C3_solve_success (env : Env) (st : AppState) (o1 o2 : AxiosOutcome)
    (hv : st.view = "queue")
    (hs : (processScreenshots env st o1 o2).success = true) :
    1 ≤ getCredits env st
    ∧ (processScreenshots env st o1 o2).st.view = "solutions"
    ∧ (processScreenshots env st o1 o2).st.extraScreenshotQueue = []
    ∧ (processScreenshots env st o1 o2).st.creditsVar = some (getCredits env st - 1) := by
  cases hwin : env.windowPresent with
  | false => simp [processScreenshots, hwin] at hs
  | true =>
  by_cases hcred : getCredits env st < 1
  · simp [processScreenshots, hwin, hcred] at hs
  · cases hqe : st.screenshotQueue.isEmpty with
    | true => simp [processScreenshots, hwin, hcred, hv, hqe] at hs
    | false =>
      cases hcf : env.configured with
      | false =>
        simp [processScreenshots, processScreenshotsHelper, hwin, hcred, hv, hqe, hcf] at hs
      | true =>
        rcases hpi : processImages env (st.screenshotQueue.map env.readFile) o1 with ⟨res, n⟩
        cases res with
        | error e =>
          cases hec : e.isCancel <;>
            simp [processScreenshots, processScreenshotsHelper, hwin, hcred, hv, hqe,
                  hcf, hpi, hec] at hs
        | ok pinfo =>
          rcases hgs : generateSolution env pinfo o2 with ⟨gres, m⟩
          cases gres with
          | error e2 =>
            cases hec2 : e2.isCancel <;>
              simp [processScreenshots, processScreenshotsHelper, generateSolutionsHelper,
                    hwin, hcred, hv, hqe, hcf, hpi, hgs, hec2] at hs
          | ok sol =>
            cases hcrf : env.creditsReadFails with
            | true =>
              exfalso; apply hcred; simp [getCredits, hwin, hcrf]
            | false =>
              cases hcv : st.creditsVar with
              | none =>
                exfalso; apply hcred; simp [getCredits, hwin, hcrf, hcv]
              | some ncred =>
                have hgc : getCredits env st = ncred := by
                  simp [getCredits, hwin, hcrf, hcv]
                have hge : 1 ≤ ncred := by
                  rw [hgc] at hcred; omega
                have hpos : 0 < ncred := by omega
                rw [hgc]
                refine ⟨hge, ?_, ?_, ?_⟩ <;>
                  simp [processScreenshots, processScreenshotsHelper,
                        generateSolutionsHelper, decrementCredits,
                        hwin, hcred, hv, hqe, hcf, hpi, hgs, hcv, hpos]

/-- Witness for C3 on a concrete fully successful run: extract and solve
both answer with a text block. -/
theorem C3_solve_success_witness :
    1 ≤ getCredits envStd stQueue
    ∧ (processScreenshots envStd stQueue helloOut helloOut).st.view = "solutions"
    ∧ (processScreenshots envStd stQueue helloOut helloOut).st.extraScreenshotQueue = []
    ∧ (processScreenshots envStd stQueue helloOut helloOut).st.creditsVar
      = some (getCredits envStd stQueue - 1) :=
  C3_solve_success envStd stQueue helloOut helloOut rfl rfl

/-- C4: every fully successful Debug pipeline run switches the view to
"debug", sets the has-been-debugged flag, implies at least one credit was
available, and decrements the credits by exactly one; every run that is not
fully successful (failure, cancellation, or a precondition stop) leaves the
credits unchanged. -/
theorem C4_debug_cycle (env : Env) (st : AppState) (o1 o2 : AxiosOutcome) :
    ((processExtraScreenshots env st o1 o2).success = true →
      (processExtraScreenshots env st o1 o2).st.view = "debug"
      ∧ (processExtraScreenshots env st o1 o2).st.hasDebugged = true
      ∧ 1 ≤ getCredits env st
      ∧ (processExtraScreenshots env st o1 o2).st.creditsVar
        = some (getCredits env st - 1))
    ∧ ((processExtraScreenshots env st o1 o2).success = false →
      (processExtraScreenshots env st o1 o2).st.creditsVar = st.creditsVar) := by
  constructor
  · intro hs
    cases hwin : env.windowPresent with
    | false => simp [processExtraScreenshots, hwin] at hs
    | true =>
    by_cases hcred : getCredits env st < 1
    · simp [processExtraScreenshots, hwin, hcred] at hs
    · by_cases hview : st.view = "solutions"
      case neg => simp [processExtraScreenshots, hwin, hcred, hview] at hs
      case pos =>
      cases hqe : st.extraScreenshotQueue.isEmpty with
      | true => simp [processExtraScreenshots, hwin, hcred, hview, hqe] at hs
      | false =>
        cases hpinfo : st.problemInfo with
        | none =>
          simp [processExtraScreenshots, processExtraScreenshotsHelper,
                hwin, hcred, hview, hqe, hpinfo] at hs
        | some p =>
          cases hsol : existingSolutionOf p == "" with
          | true =>
            simp [processExtraScreenshots, processExtraScreenshotsHelper,
                  hwin, hcred, hview, hqe, hpinfo, hsol] at hs
          | false =>
            cases hcf : env.configured with
            | false =>
              simp [processExtraScreenshots, processExtraScreenshotsHelper,
                    hwin, hcred, hview, hqe, hpinfo, hsol, hcf] at hs
            | true =>
              rcases hpi : processImages env (st.extraScreenshotQueue.map env.readFile) o1
                with ⟨res, n⟩
              cases res with
              | error e =>
                cases hec : e.isCancel <;>
                  simp [processExtraScreenshots, processExtraScreenshotsHelper,
                        hwin, hcred, hview, hqe, hpinfo, hsol, hcf, hpi, hec] at hs
              | ok errorData =>
                rcases hds : debugSolution env p (existingSolutionOf p)
                    (errDescription errorData) o2 with ⟨dres, m⟩
                cases dres with
                | error e2 =>
                  cases hec2 : e2.isCancel <;>
                    simp [processExtraScreenshots, processExtraScreenshotsHelper,
                          hwin, hcred, hview, hqe, hpinfo, hsol, hcf, hpi, hds, hec2] at hs
                | ok debugResult =>
                  cases hcrf : env.creditsReadFails with
                  | true => exfalso; apply hcred; simp [getCredits, hwin, hcrf]
                  | false =>
                    cases hcv : st.creditsVar with
                    | none => exfalso; apply hcred; simp [getCredits, hwin, hcrf, hcv]
                    | some ncred =>
                      have hgc : getCredits env st = ncred := by
                        simp [getCredits, hwin, hcrf, hcv]
                      have hge : 1 ≤ ncred := by rw [hgc] at hcred; omega
                      have hpos : 0 < ncred := by omega
                      rw [hgc]
                      refine ⟨?_, ?_, hge, ?_⟩ <;>
                        simp [processExtraScreenshots, processExtraScreenshotsHelper,
                              decrementCredits, hwin, hcred, hview, hqe, hpinfo,
                              hsol, hcf, hpi, hds, hcv, hpos]
  · intro hs
    cases hwin : env.windowPresent with
    | false => simp [processExtraScreenshots, hwin]
    | true =>
    by_cases hcred : getCredits env st < 1
    · simp [processExtraScreenshots, hwin, hcred]
    · by_cases hview : st.view = "solutions"
      case neg => simp [processExtraScreenshots, hwin, hcred, hview]
      case pos =>
      cases hqe : st.extraScreenshotQueue.isEmpty with
      | true => simp [processExtraScreenshots, hwin, hcred, hview, hqe]
      | false =>
        cases hpinfo : st.problemInfo with
        | none =>
          simp [processExtraScreenshots, processExtraScreenshotsHelper,
                hwin, hcred, hview, hqe, hpinfo]
        | some p =>
          cases hsol : existingSolutionOf p == "" with
          | true =>
            simp [processExtraScreenshots, processExtraScreenshotsHelper,
                  hwin, hcred, hview, hqe, hpinfo, hsol]
          | false =>
            cases hcf : env.configured with
            | false =>
              simp [processExtraScreenshots, processExtraScreenshotsHelper,
                    hwin, hcred, hview, hqe, hpinfo, hsol, hcf]
            | true =>
              rcases hpi : processImages env (st.extraScreenshotQueue.map env.readFile) o1
                with ⟨res, n⟩
              cases res with
              | error e =>
                cases hec : e.isCancel <;>
                  simp [processExtraScreenshots, processExtraScreenshotsHelper,
                        hwin, hcred, hview, hqe, hpinfo, hsol, hcf, hpi, hec]
              | ok errorData =>
                rcases hds : debugSolution env p (existingSolutionOf p)
                    (errDescription errorData) o2 with ⟨dres, m⟩
                cases dres with
                | error e2 =>
                  cases hec2 : e2.isCancel <;>
                    simp [processExtraScreenshots, processExtraScreenshotsHelper,
                          hwin, hcred, hview, hqe, hpinfo, hsol, hcf, hpi, hds, hec2]
                | ok debugResult =>
                  simp [processExtraScreenshots, processExtraScreenshotsHelper,
                        hwin, hcred, hview, hqe, hpinfo, hsol, hcf, hpi, hds] at hs

/-- Witness for C4: a concrete fully successful Debug run on the solved
state, and a concrete non-successful run (queue view) leaving the credits
unchanged. -/
theorem C4_debug_cycle_witness :
    ((processExtraScreenshots envStd stSolved helloOut helloOut).st.view = "debug"
      ∧ (processExtraScreenshots envStd stSolved helloOut helloOut).st.hasDebugged = true
      ∧ 1 ≤ getCredits envStd stSolved
      ∧ (processExtraScreenshots envStd stSolved helloOut helloOut).st.creditsVar
        = some (getCredits envStd stSolved - 1))
    ∧ (processExtraScreenshots envStd stQueue AxiosOutcome.cancel AxiosOutcome.cancel).st.creditsVar
      = stQueue.creditsVar :=
  ⟨(C4_debug_cycle envStd stSolved helloOut helloOut).1 (by rfl),
   (C4_debug_cycle envStd stQueue AxiosOutcome.cancel AxiosOutcome.cancel).2 (by rfl)⟩

/-- C2 amended: every failing pipeline run that got past its preconditions
emits at least one and at most two terminal error events — not exactly one:
when the solve step (or the debug helper's gateway steps) fails, the helper
emits the error event and the caller emits it again.  No pipeline-internal
failure escapes: both entry points are total functions of the environment's
outcomes. -/
theorem C2_amended (env : Env) (st : AppState) (o1 o2 : AxiosOutcome)
    (hw : env.windowPresent = true) (hc : ¬ getCredits env st < 1) :
    (st.view = "queue" → st.screenshotQueue.isEmpty = false →
      (processScreenshots env st o1 o2).success = false →
      1 ≤ countSolutionError (processScreenshots env st o1 o2).events
      ∧ countSolutionError (processScreenshots env st o1 o2).events ≤ 2)
    ∧ (st.view = "solutions" → st.extraScreenshotQueue.isEmpty = false →
      (processExtraScreenshots env st o1 o2).success = false →
      1 ≤ countDebugError (processExtraScreenshots env st o1 o2).events
      ∧ countDebugError (processExtraScreenshots env st o1 o2).events ≤ 2) := by
  constructor
  · intro hv hqe hs
    cases hcf : env.configured with
    | false =>
      norm_num [processScreenshots, processScreenshotsHelper, countSolutionError,
                isSolutionErrorEv, hw, hc, hv, hqe, hcf]
    | true =>
      rcases hpi : processImages env (st.screenshotQueue.map env.readFile) o1 with ⟨res, n⟩
      cases res with
      | error e =>
        cases hec : e.isCancel <;>
          norm_num [processScreenshots, processScreenshotsHelper, countSolutionError,
                    isSolutionErrorEv, hw, hc, hv, hqe, hcf, hpi, hec]
      | ok pinfo =>
        rcases hgs : generateSolution env pinfo o2 with ⟨gres, m⟩
        cases gres with
        | error e2 =>
          cases hec2 : e2.isCancel <;>
            norm_num [processScreenshots, processScreenshotsHelper,
                      generateSolutionsHelper, countSolutionError,
                      isSolutionErrorEv, hw, hc, hv, hqe, hcf, hpi, hgs, hec2]
        | ok sol =>
          simp [processScreenshots, processScreenshotsHelper,
                generateSolutionsHelper, hw, hc, hv, hqe, hcf, hpi, hgs] at hs
  · intro hv hqe hs
    cases hpinfo : st.problemInfo with
    | none =>
      norm_num [processExtraScreenshots, processExtraScreenshotsHelper,
                countDebugError, isDebugErrorEv, hw, hc, hv, hqe, hpinfo]
    | some p =>
      cases hsol : existingSolutionOf p == "" with
      | true =>
        norm_num [processExtraScreenshots, processExtraScreenshotsHelper,
                  countDebugError, isDebugErrorEv, hw, hc, hv, hqe, hpinfo, hsol]
      | false =>
        cases hcf : env.configured with
        | false =>
          norm_num [processExtraScreenshots, processExtraScreenshotsHelper,
                    countDebugError, isDebugErrorEv, hw, hc, hv, hqe, hpinfo, hsol, hcf]
        | true =>
          rcases hpi : processImages env (st.extraScreenshotQueue.map env.readFile) o1
            with ⟨res, n⟩
          cases res with
          | error e =>
            cases hec : e.isCancel <;>
              norm_num [processExtraScreenshots, processExtraScreenshotsHelper,
                        countDebugError, isDebugErrorEv, hw, hc, hv, hqe, hpinfo,
                        hsol, hcf, hpi, hec]
          | ok errorData =>
            rcases hds : debugSolution env p (existingSolutionOf p)
                (errDescription errorData) o2 with ⟨dres, m⟩
            cases dres with
            | error e2 =>
              cases hec2 : e2.isCancel <;>
                norm_num [processExtraScreenshots, processExtraScreenshotsHelper,
                          countDebugError, isDebugErrorEv, hw, hc, hv, hqe, hpinfo,
                          hsol, hcf, hpi, hds, hec2]
            | ok debugResult =>
              simp [processExtraScreenshots, processExtraScreenshotsHelper,
                    hw, hc, hv, hqe, hpinfo, hsol, hcf, hpi, hds] at hs

/-- Witness for C2 amended: a Solve run failing at the solve step emits the
terminal error twice, and a Debug run without a usable solution emits the
terminal error twice. -/
theorem C2_amended_witness :
    (1 ≤ countSolutionError
        (processScreenshots envStd stQueue helloOut (AxiosOutcome.http 503 ("down"))).events
      ∧ countSolutionError
        (processScreenshots envStd stQueue helloOut (AxiosOutcome.http 503 ("down"))).events ≤ 2)
    ∧ (1 ≤ countDebugError
        (processExtraScreenshots envStd stSolNoInfo helloOut helloOut).events
      ∧ countDebugError
        (processExtraScreenshots envStd stSolNoInfo helloOut helloOut).events ≤ 2) :=
  ⟨(C2_amended envStd stQueue helloOut (AxiosOutcome.http 503 ("down")) rfl
      (by decide)).1 rfl rfl (by rfl),
   (C2_amended envStd stSolNoInfo helloOut helloOut rfl
      (by decide)).2 rfl rfl (by rfl)⟩
